import Mathlib

/-
Shallow embedding of the charger-availability reservation and charging-session
lifecycle subsystem of the Bariq repository.

Sources embedded:
  - src/server/routes.ts: the POST /api/charging-sessions/start handler,
    the POST /api/charging-sessions/:id/end handler,
    the PATCH /api/stations/:id/availability handler,
    and the POST /api/stations handler;
  - src/server/auth/customAuth.ts (DatabaseStorage): getStation, createStation,
    updateStationAvailability, startChargingSession, endChargingSession,
    getActiveSession, getSessionById, deleteSession;
  - src/shared/schema.ts: the stations and charging_sessions tables;
  - src/shared/routes.ts: the zod input schemata of the handlers.

Modelling conventions: nullable integer columns become Option Int; the real
column energy_kwh becomes Option Rat (it is only stored and compared, never
computed with); timestamps are integer epoch milliseconds (Int), passed to each
operation as an explicit `now`; database tables are association lists of rows;
a single-row UPDATE ... WHERE id = k maps over the list touching the rows whose
id is k; the primary-key uniqueness the database enforces is an explicit
hypothesis (stationIdsNodup / sessionIdsNodup) where a proof needs it.
The storage fault that the start handler's try/catch guards against is
modelled by an explicit `updateFails` flag: when set, the
updateStationAvailability step mutates nothing and reports failure, exactly as
a throwing UPDATE would.
-/

deriving instance DecidableEq for Except

namespace Bariq

/-- Stored `stations` row, restricted to the columns the subsystem reads.
`charger_count` and `available_chargers` are nullable integer columns with
database default 1. -/
structure Station where
  id : Nat
  chargerCount : Option Int
  availableChargers : Option Int
deriving Repr, DecidableEq

/-- Stored `charging_sessions` row, restricted to the columns the subsystem
reads and writes. -/
structure ChargingSession where
  id : Nat
  stationId : Nat
  userId : Option String
  userVehicleId : Option Nat
  batteryStartPercent : Option Int
  batteryEndPercent : Option Int
  energyKwh : Option Rat
  startTime : Option Int
  endTime : Option Int
  durationMinutes : Option Int
  isActive : Bool
deriving Repr, DecidableEq

/-- The database state seen by the subsystem: the stations table, the
charging_sessions table, and the serial id sequences. -/
structure AppState where
  stations : List Station
  sessions : List ChargingSession
  nextStationId : Nat
  nextSessionId : Nat
deriving Repr, DecidableEq

/-- `station.availableChargers ?? 0` as read by both handlers. -/
def availOf (s : Station) : Int := s.availableChargers.getD 0

/-- `station.chargerCount ?? 1` as read by the end handler. -/
def totalOf (s : Station) : Int := s.chargerCount.getD 1

/-- `station.chargerCount || 1` as read by the availability handler:
JavaScript `||` treats both null and 0 as falsy. -/
def totalOrOne (s : Station) : Int :=
  match s.chargerCount with
  | none => 1
  | some v => if v = 0 then 1 else v

/-- DatabaseStorage.getStation: SELECT from stations WHERE id = `id`. -/
def getStation (st : AppState) (id : Nat) : Option Station :=
  st.stations.find? (fun s => s.id == id)

/-- DatabaseStorage.getSessionById: SELECT from charging_sessions WHERE id. -/
def getSessionById (st : AppState) (id : Nat) : Option ChargingSession :=
  st.sessions.find? (fun s => s.id == id)

/-- DatabaseStorage.getActiveSession: SELECT WHERE stationId and isActive. -/
def getActiveSession (st : AppState) (stationId : Nat) : Option ChargingSession :=
  st.sessions.find? (fun s => s.stationId == stationId && s.isActive)

/-- DatabaseStorage.updateStationAvailability: UPDATE stations
SET available_chargers = v WHERE id = id. -/
def updateStationAvailability (st : AppState) (id : Nat) (v : Int) : AppState :=
  { st with
    stations := st.stations.map fun s =>
      if s.id == id then { s with availableChargers := some v } else s }

/-- The row DatabaseStorage.startChargingSession inserts: a new ACTIVE session
with startTime = now and the optional battery / vehicle / user fields. -/
def newSessionRow (st : AppState) (stationId : Nat) (batteryStart : Option Int)
    (vehicleId : Option Nat) (userId : Option String) (now : Int) : ChargingSession :=
  { id := st.nextSessionId
    stationId := stationId
    userId := userId
    userVehicleId := vehicleId
    batteryStartPercent := batteryStart
    batteryEndPercent := none
    energyKwh := none
    startTime := some now
    endTime := none
    durationMinutes := none
    isActive := true }

/-- State after DatabaseStorage.startChargingSession's INSERT. -/
def insertSessionState (st : AppState) (sess : ChargingSession) : AppState :=
  { st with
    sessions := st.sessions ++ [sess]
    nextSessionId := st.nextSessionId + 1 }

/-- DatabaseStorage.deleteSession: DELETE FROM charging_sessions WHERE id. -/
def deleteSession (st : AppState) (id : Nat) : AppState :=
  { st with sessions := st.sessions.filter fun s => s.id != id }

/-- JavaScript `Math.round (num / den)` for a positive denominator:
floor (num / den + 1 / 2), ties rounding up, on integers. -/
def jsRoundDiv (num den : Int) : Int := Int.fdiv (2 * num + den) (2 * den)

/-- The updated row DatabaseStorage.endChargingSession writes: endTime = now,
durationMinutes = Math.round((endTime - startTime) / 60000) when startTime is
set, the supplied battery / energy fields, isActive = false. -/
def endChargingSessionRow (sess : ChargingSession) (now : Int)
    (batteryEnd : Option Int) (energy : Option Rat) : ChargingSession :=
  { sess with
    endTime := some now
    durationMinutes :=
      match sess.startTime with
      | some t0 => some (jsRoundDiv (now - t0) 60000)
      | none => none
    batteryEndPercent := batteryEnd
    energyKwh := energy
    isActive := false }

/-- UPDATE charging_sessions SET ... WHERE id = row.id, writing `row`. -/
def updateSessionRow (st : AppState) (row : ChargingSession) : AppState :=
  { st with
    sessions := st.sessions.map fun s => if s.id == row.id then row else s }

/-- zod `z.number().min(0).max(100).optional()` on a battery percentage. -/
def validBattery (b : Option Int) : Bool :=
  match b with
  | none => true
  | some v => decide (0 ≤ v) && decide (v ≤ 100)

/-- zod `z.number().min(0).optional()` on the energy field. -/
def validEnergy (e : Option Rat) : Bool :=
  match e with
  | none => true
  | some v => decide (0 ≤ v)

/-- Outcomes of the POST /api/charging-sessions/start handler:
HTTP 400 zod validation, 404 "Station not found",
400 "No available chargers", and the rethrown storage fault (HTTP 500)
after the rollback branch. -/
inductive StartError
  | validation
  | stationNotFound
  | noAvailableChargers
  | persistenceFailure
deriving Repr, DecidableEq

/-- Outcomes of the POST /api/charging-sessions/:id/end handler:
HTTP 400 zod validation, 404 "Session not found",
403 "Cannot end another user's session", 400 "Session already ended". -/
inductive EndError
  | validation
  | sessionNotFound
  | forbidden
  | alreadyEnded
deriving Repr, DecidableEq

/-- Outcomes of the PATCH /api/stations/:id/availability handler. -/
inductive AvailError
  | validation
  | stationNotFound
  | exceedsTotal
deriving Repr, DecidableEq

/-- The ownership guard of the end handler:
`existingSession.userId && existingSession.userId !== userId`. -/
def ownershipMismatch (sess : ChargingSession) (requester : Option String) : Bool :=
  match sess.userId with
  | none => false
  | some owner => some owner != requester

/-- POST /api/charging-sessions/start handler (src/server/routes.ts 164-200),
returning its result together with the list of database states observable
after each completed storage mutation, in order.  Steps: parse input, look up
the station, guard `available <= 0`, INSERT the session, then UPDATE the
availability to `available - 1`; if that UPDATE fails (`updateFails`), DELETE
the inserted session and rethrow. -/
def startSessionSteps (st : AppState) (stationId : Nat) (batteryStart : Option Int)
    (vehicleId : Option Nat) (userId : Option String) (now : Int)
    (updateFails : Bool) : Except StartError ChargingSession × List AppState :=
  if !validBattery batteryStart then (.error .validation, [])
  else
    match getStation st stationId with
    | none => (.error .stationNotFound, [])
    | some station =>
      let available := availOf station
      if available ≤ 0 then (.error .noAvailableChargers, [])
      else
        let sess := newSessionRow st stationId batteryStart vehicleId userId now
        let st1 := insertSessionState st sess
        if updateFails then
          (.error .persistenceFailure, [st1, deleteSession st1 sess.id])
        else
          (.ok sess, [st1, updateStationAvailability st1 stationId (available - 1)])

/-- The start handler's result and final database state. -/
def startSession (st : AppState) (stationId : Nat) (batteryStart : Option Int)
    (vehicleId : Option Nat) (userId : Option String) (now : Int)
    (updateFails : Bool) : Except StartError ChargingSession × AppState :=
  let p := startSessionSteps st stationId batteryStart vehicleId userId now updateFails
  (p.1, p.2.getLastD st)

/-- POST /api/charging-sessions/:id/end handler (src/server/routes.ts 202-246),
with the observable intermediate states.  Steps: parse input, look up the
session, ownership guard, `isActive` guard, UPDATE the session row to ENDED,
then re-read the station and UPDATE availability to `available + 1` only when
`available < total`. -/
def endSessionSteps (st : AppState) (sessionId : Nat) (requester : Option String)
    (batteryEnd : Option Int) (energy : Option Rat) (now : Int) :
    Except EndError ChargingSession × List AppState :=
  if !(validBattery batteryEnd && validEnergy energy) then (.error .validation, [])
  else
    match getSessionById st sessionId with
    | none => (.error .sessionNotFound, [])
    | some sess =>
      if ownershipMismatch sess requester then (.error .forbidden, [])
      else if !sess.isActive then (.error .alreadyEnded, [])
      else
        let ended := endChargingSessionRow sess now batteryEnd energy
        let st1 := updateSessionRow st ended
        match getStation st1 ended.stationId with
        | none => (.ok ended, [st1])
        | some station =>
          let available := availOf station
          let total := totalOf station
          if available < total then
            (.ok ended, [st1, updateStationAvailability st1 ended.stationId (available + 1)])
          else
            (.ok ended, [st1])

/-- The end handler's result and final database state. -/
def endSession (st : AppState) (sessionId : Nat) (requester : Option String)
    (batteryEnd : Option Int) (energy : Option Rat) (now : Int) :
    Except EndError ChargingSession × AppState :=
  let p := endSessionSteps st sessionId requester batteryEnd energy now
  (p.1, p.2.getLastD st)

/-- PATCH /api/stations/:id/availability handler (src/server/routes.ts 94-115):
zod rejects a negative value, 404 when the station is missing, 400 when the
value exceeds `station.chargerCount || 1`, otherwise UPDATE. -/
def updateAvailability (st : AppState) (stationId : Nat) (value : Int) :
    Except AvailError Station × AppState :=
  if value < 0 then (.error .validation, st)
  else
    match getStation st stationId with
    | none => (.error .stationNotFound, st)
    | some station =>
      if totalOrOne station < value then (.error .exceedsTotal, st)
      else
        (.ok { station with availableChargers := some value },
         updateStationAvailability st stationId value)

/-- Charger-count fields of an insertStationSchema payload: the schema imposes
no bound relating availableChargers to chargerCount (the drizzle defaults fill
1 for an omitted field; the stored values are taken directly here). -/
structure InsertStation where
  chargerCount : Option Int
  availableChargers : Option Int
deriving Repr, DecidableEq

/-- POST /api/stations handler + DatabaseStorage.createStation
(src/server/auth/customAuth.ts 437-440): plain INSERT, no validation of the
charger counters. -/
def createStationOp (st : AppState) (input : InsertStation) : Station × AppState :=
  let station : Station :=
    { id := st.nextStationId
      chargerCount := input.chargerCount
      availableChargers := input.availableChargers }
  (station,
   { st with
     stations := st.stations ++ [station]
     nextStationId := st.nextStationId + 1 })

/-- Number of ACTIVE sessions recorded for a station. -/
def activeCount (st : AppState) (stationId : Nat) : Int :=
  (st.sessions.countP fun s => s.stationId == stationId && s.isActive : Nat)

/-- The capacity equality of the spec for one station:
availableChargers + activeSessionCount = totalChargers. -/
def capacityEq (st : AppState) (s : Station) : Prop :=
  availOf s + activeCount st s.id = totalOf s

/-- The spec invariant `availableChargers(S) + activeSessionCount(S) =
totalChargers(S)` for every station of the state. -/
def capacityInvariant (st : AppState) : Prop :=
  ∀ s ∈ st.stations, capacityEq st s

/-- The spec invariant `0 ≤ availableChargers(S) ≤ totalChargers(S)`
for every station of the state. -/
def chargerBoundInvariant (st : AppState) : Prop :=
  ∀ s ∈ st.stations, 0 ≤ availOf s ∧ availOf s ≤ totalOf s

/-- Every station has at least one charger (chargerCount ?? 1 ≥ 1). -/
def positiveTotals (st : AppState) : Prop :=
  ∀ s ∈ st.stations, 1 ≤ totalOf s

/-- The serial sequence is ahead of every stored session id (what a database
serial primary key guarantees). -/
def freshSessionId (st : AppState) : Prop :=
  ∀ s ∈ st.sessions, s.id < st.nextSessionId

/-- Primary-key uniqueness of the stations table. -/
def stationIdsNodup (st : AppState) : Prop :=
  (st.stations.map fun s => s.id).Nodup

/-- Primary-key uniqueness of the charging_sessions table. -/
def sessionIdsNodup (st : AppState) : Prop :=
  (st.sessions.map fun s => s.id).Nodup

instance (st : AppState) (s : Station) : Decidable (capacityEq st s) := by
  unfold capacityEq; infer_instance

instance (st : AppState) : Decidable (capacityInvariant st) := by
  unfold capacityInvariant; exact List.decidableBAll _ _

instance (st : AppState) : Decidable (chargerBoundInvariant st) := by
  unfold chargerBoundInvariant; exact List.decidableBAll _ _

instance (st : AppState) : Decidable (positiveTotals st) := by
  unfold positiveTotals; exact List.decidableBAll _ _

instance (st : AppState) : Decidable (freshSessionId st) := by
  unfold freshSessionId; exact List.decidableBAll _ _

instance (st : AppState) : Decidable (stationIdsNodup st) := by
  unfold stationIdsNodup; infer_instance

instance (st : AppState) : Decidable (sessionIdsNodup st) := by
  unfold sessionIdsNodup; infer_instance

@[simp] theorem stations_updateSessionRow (st : AppState) (row : ChargingSession) :
    (updateSessionRow st row).stations = st.stations := rfl

@[simp] theorem sessions_updateStationAvailability (st : AppState) (id : Nat) (v : Int) :
    (updateStationAvailability st id v).sessions = st.sessions := rfl

@[simp] theorem stations_insertSessionState (st : AppState) (sess : ChargingSession) :
    (insertSessionState st sess).stations = st.stations := rfl

@[simp] theorem stations_deleteSession (st : AppState) (id : Nat) :
    (deleteSession st id).stations = st.stations := rfl

@[simp] theorem stationId_endRow (sess : ChargingSession) (now : Int)
    (be : Option Int) (en : Option Rat) :
    (endChargingSessionRow sess now be en).stationId = sess.stationId := rfl

@[simp] theorem id_endRow (sess : ChargingSession) (now : Int)
    (be : Option Int) (en : Option Rat) :
    (endChargingSessionRow sess now be en).id = sess.id := rfl

/-- Updating the rows whose key equals k commutes with looking up key k,
provided the update keeps the key. -/
theorem find?_map_ite {α : Type} (key : α → Nat) (k : Nat) (f : α → α) (l : List α)
    (hf : ∀ x, key x = k → key (f x) = k) :
    (l.map fun x => if key x == k then f x else x).find? (fun x => key x == k)
      = Option.map f (l.find? fun x => key x == k) := by
  induction l with
  | nil => rfl
  | cons a t ih =>
    simp only [List.map_cons, List.find?_cons]
    by_cases h : key a = k
    · have hb : (key a == k) = true := by simp [h]
      have hfb : (key (f a) == k) = true := by simp [hf a h]
      rw [if_pos hb, hfb, hb]
      rfl
    · have hb : (key a == k) = false := by simp [h]
      rw [if_neg (by simp [hb]), hb]
      exact ih

/-- With distinct keys, any member carrying the looked-up key is the element
that find? returns. -/
theorem find?_key_unique {α : Type} (key : α → Nat) (k : Nat) (l : List α)
    (hnd : (l.map key).Nodup) {a b : α}
    (hfind : l.find? (fun x => key x == k) = some b)
    (ha : a ∈ l) (hk : key a = k) : a = b := by
  induction l with
  | nil => cases ha
  | cons c t ih =>
    rw [List.map_cons, List.nodup_cons] at hnd
    rw [List.find?_cons] at hfind
    by_cases h : key c = k
    · have hb : (key c == k) = true := by simp [h]
      rw [hb] at hfind
      have hcb : c = b := Option.some.inj hfind
      rcases List.mem_cons.mp ha with rfl | hat
      · exact hcb
      · exact absurd (List.mem_map.mpr ⟨a, hat, (hk.trans h.symm)⟩) hnd.1
    · have hb : (key c == k) = false := by simp [h]
      rw [hb] at hfind
      rcases List.mem_cons.mp ha with rfl | hat
      · exact absurd hk h
      · exact ih hnd.2 hfind hat

/-- Replacing, by key, the unique row found at key k changes a countP tally by
swapping that row's contribution for the replacement's. -/
theorem countP_map_ite {α : Type} (key : α → Nat) (p : α → Bool) (r : α) (k : Nat)
    (l : List α) {b : α}
    (hfind : l.find? (fun x => key x == k) = some b)
    (hnd : (l.map key).Nodup) :
    (l.map fun x => if key x == k then r else x).countP p + (if p b then 1 else 0)
      = l.countP p + (if p r then 1 else 0) := by
  induction l with
  | nil => simp [List.find?] at hfind
  | cons c t ih =>
    rw [List.map_cons, List.nodup_cons] at hnd
    rw [List.find?_cons] at hfind
    by_cases h : key c = k
    · have hb : (key c == k) = true := by simp [h]
      rw [hb] at hfind
      have hcb : c = b := Option.some.inj hfind
      subst hcb
      have ht : t.map (fun x => if key x == k then r else x) = t := by
        rw [show t.map (fun x => if key x == k then r else x) = t.map id from
          List.map_congr_left fun x hx => by
            have hx' : key x ≠ k := fun he =>
              hnd.1 (List.mem_map.mpr ⟨x, hx, he.trans h.symm⟩)
            simp [hx'], List.map_id]
      simp only [List.map_cons, ht]
      rw [if_pos hb, List.countP_cons, List.countP_cons]
      omega
    · have hb : (key c == k) = false := by simp [h]
      rw [hb] at hfind
      have IH := ih hfind hnd.2
      simp only [List.map_cons]
      rw [if_neg (by simp [hb]), List.countP_cons, List.countP_cons]
      omega

@[simp] theorem getStation_updateSessionRow (st : AppState) (row : ChargingSession)
    (k : Nat) : getStation (updateSessionRow st row) k = getStation st k := rfl

/-- The code's `Math.round((end - start) / 60000)` agrees with the mathematical
round of the quotient (both round halves up). -/
theorem jsRoundDiv_eq_round (num den : Int) (h : 0 < den) :
    jsRoundDiv num den = round ((num : ℚ) / (den : ℚ)) := by
  obtain ⟨n, rfl⟩ : ∃ n : ℕ, den = (n : ℤ) := ⟨den.toNat, (Int.toNat_of_nonneg h.le).symm⟩
  have hn : 0 < n := by exact_mod_cast h
  unfold jsRoundDiv
  rw [round_eq]
  have h2 : (num : ℚ) / (n : ℤ) + 1 / 2 = ((2 * num + n : ℤ) : ℚ) / ((2 * n : ℕ) : ℚ) := by
    have hd : ((n : ℤ) : ℚ) ≠ 0 := by positivity
    push_cast at hd ⊢
    field_simp
    ring
  rw [h2, Rat.floor_intCast_div_natCast, Int.fdiv_eq_ediv]
  · norm_cast
  · positivity

/-- Deleting the freshly inserted session restores the sessions table. -/
theorem deleteSession_insert_fresh (st : AppState) (sess : ChargingSession)
    (hf : freshSessionId st) (hid : sess.id = st.nextSessionId) :
    (deleteSession (insertSessionState st sess) sess.id).sessions = st.sessions := by
  unfold deleteSession insertSessionState
  simp only [List.filter_append]
  have h1 : st.sessions.filter (fun s => s.id != sess.id) = st.sessions :=
    List.filter_eq_self.mpr fun a ha => by
      have := hf a ha
      simp only [bne_iff_ne, ne_eq]
      omega
  have h2 : [sess].filter (fun s => s.id != sess.id) = [] := by simp
  rw [h1, h2, List.append_nil]

/-- Success path of the start handler: the session INSERT happens first, the
availability decrement second. -/
theorem startSession_final_success (st : AppState) (stationId : Nat)
    (bs : Option Int) (vid : Option Nat) (uid : Option String) (now : Int)
    (station : Station)
    (hv : validBattery bs = true)
    (hst : getStation st stationId = some station)
    (hav : 0 < availOf station) :
    startSession st stationId bs vid uid now false
      = (.ok (newSessionRow st stationId bs vid uid now),
         updateStationAvailability
           (insertSessionState st (newSessionRow st stationId bs vid uid now))
           stationId (availOf station - 1)) := by
  have h0 : ¬ availOf station ≤ 0 := by omega
  simp [startSession, startSessionSteps, hv, hst, h0]

/-- Rollback path of the start handler: the failing availability UPDATE makes
the handler DELETE the session it had just inserted and rethrow. -/
theorem startSession_final_rollback (st : AppState) (stationId : Nat)
    (bs : Option Int) (vid : Option Nat) (uid : Option String) (now : Int)
    (station : Station)
    (hv : validBattery bs = true)
    (hst : getStation st stationId = some station)
    (hav : 0 < availOf station) :
    startSession st stationId bs vid uid now true
      = (.error .persistenceFailure,
         deleteSession
           (insertSessionState st (newSessionRow st stationId bs vid uid now))
           (newSessionRow st stationId bs vid uid now).id) := by
  have h0 : ¬ availOf station ≤ 0 := by omega
  simp [startSession, startSessionSteps, hv, hst, h0]

/-- Invalid-input path of the start handler: zod rejects before any lookup. -/
theorem startSession_final_validation (st : AppState) (stationId : Nat)
    (bs : Option Int) (vid : Option Nat) (uid : Option String) (now : Int)
    (updateFails : Bool)
    (hv : validBattery bs = false) :
    startSession st stationId bs vid uid now updateFails = (.error .validation, st) := by
  simp [startSession, startSessionSteps, hv]

/-- Unknown-station path of the start handler. -/
theorem startSession_final_notFound (st : AppState) (stationId : Nat)
    (bs : Option Int) (vid : Option Nat) (uid : Option String) (now : Int)
    (updateFails : Bool)
    (hv : validBattery bs = true)
    (hst : getStation st stationId = none) :
    startSession st stationId bs vid uid now updateFails
      = (.error .stationNotFound, st) := by
  simp [startSession, startSessionSteps, hv, hst]

/-- Exhausted-capacity path of the start handler. -/
theorem startSession_final_noavail (st : AppState) (stationId : Nat)
    (bs : Option Int) (vid : Option Nat) (uid : Option String) (now : Int)
    (updateFails : Bool) (station : Station)
    (hv : validBattery bs = true)
    (hst : getStation st stationId = some station)
    (hav : availOf station ≤ 0) :
    startSession st stationId bs vid uid now updateFails
      = (.error .noAvailableChargers, st) := by
  simp [startSession, startSessionSteps, hv, hst, hav]

/-- Invalid-input path of the end handler. -/
theorem endSession_final_validation (st : AppState) (sessionId : Nat)
    (requester : Option String) (be : Option Int) (en : Option Rat) (now : Int)
    (hv : (validBattery be && validEnergy en) = false) :
    endSession st sessionId requester be en now = (.error .validation, st) := by
  simp [endSession, endSessionSteps, hv]

/-- Unknown-session path of the end handler. -/
theorem endSession_final_notFound (st : AppState) (sessionId : Nat)
    (requester : Option String) (be : Option Int) (en : Option Rat) (now : Int)
    (hv : validBattery be = true) (hve : validEnergy en = true)
    (hfind : getSessionById st sessionId = none) :
    endSession st sessionId requester be en now = (.error .sessionNotFound, st) := by
  simp [endSession, endSessionSteps, hv, hve, hfind]

/-- Ownership-guard path of the end handler. -/
theorem endSession_final_forbidden (st : AppState) (sessionId : Nat)
    (requester : Option String) (be : Option Int) (en : Option Rat) (now : Int)
    (sess : ChargingSession)
    (hv : validBattery be = true) (hve : validEnergy en = true)
    (hfind : getSessionById st sessionId = some sess)
    (hown : ownershipMismatch sess requester = true) :
    endSession st sessionId requester be en now = (.error .forbidden, st) := by
  simp [endSession, endSessionSteps, hv, hve, hfind, hown]

/-- Success path of the end handler when the station is found and has a free
slot to return: session UPDATE first, availability increment second. -/
theorem endSession_final_release (st : AppState) (sessionId : Nat)
    (requester : Option String) (be : Option Int) (en : Option Rat) (now : Int)
    (sess : ChargingSession) (station : Station)
    (hv : validBattery be = true) (hve : validEnergy en = true)
    (hfind : getSessionById st sessionId = some sess)
    (hown : ownershipMismatch sess requester = false)
    (hact : sess.isActive = true)
    (hstat : getStation st sess.stationId = some station)
    (hlt : availOf station < totalOf station) :
    endSession st sessionId requester be en now
      = (.ok (endChargingSessionRow sess now be en),
         updateStationAvailability
           (updateSessionRow st (endChargingSessionRow sess now be en))
           sess.stationId (availOf station + 1)) := by
  simp [endSession, endSessionSteps, hv, hve, hfind, hown, hact, hstat, hlt]

/-- Success path of the end handler when the counter is already at (or above)
the total: the increment is skipped. -/
theorem endSession_final_norelease (st : AppState) (sessionId : Nat)
    (requester : Option String) (be : Option Int) (en : Option Rat) (now : Int)
    (sess : ChargingSession) (station : Station)
    (hv : validBattery be = true) (hve : validEnergy en = true)
    (hfind : getSessionById st sessionId = some sess)
    (hown : ownershipMismatch sess requester = false)
    (hact : sess.isActive = true)
    (hstat : getStation st sess.stationId = some station)
    (hlt : ¬ availOf station < totalOf station) :
    endSession st sessionId requester be en now
      = (.ok (endChargingSessionRow sess now be en),
         updateSessionRow st (endChargingSessionRow sess now be en)) := by
  simp [endSession, endSessionSteps, hv, hve, hfind, hown, hact, hstat, hlt]

/-- Success path of the end handler when the session's station record does not
exist: no increment is attempted. -/
theorem endSession_final_nostation (st : AppState) (sessionId : Nat)
    (requester : Option String) (be : Option Int) (en : Option Rat) (now : Int)
    (sess : ChargingSession)
    (hv : validBattery be = true) (hve : validEnergy en = true)
    (hfind : getSessionById st sessionId = some sess)
    (hown : ownershipMismatch sess requester = false)
    (hact : sess.isActive = true)
    (hstat : getStation st sess.stationId = none) :
    endSession st sessionId requester be en now
      = (.ok (endChargingSessionRow sess now be en),
         updateSessionRow st (endChargingSessionRow sess now be en)) := by
  simp [endSession, endSessionSteps, hv, hve, hfind, hown, hact, hstat]

/-- Already-ended guard of the end handler. -/
theorem endSession_final_alreadyEnded (st : AppState) (sessionId : Nat)
    (requester : Option String) (be : Option Int) (en : Option Rat) (now : Int)
    (sess : ChargingSession)
    (hv : validBattery be = true) (hve : validEnergy en = true)
    (hfind : getSessionById st sessionId = some sess)
    (hown : ownershipMismatch sess requester = false)
    (hact : sess.isActive = false) :
    endSession st sessionId requester be en now = (.error .alreadyEnded, st) := by
  simp [endSession, endSessionSteps, hv, hve, hfind, hown, hact]

/-- A station with 2 chargers of which 1 is free, carrying one active session
owned by alice: the capacity equality 1 + 1 = 2 holds. -/
def demoStation : Station :=
  { id := 1, chargerCount := some 2, availableChargers := some 1 }

def aliceSession : ChargingSession :=
  { id := 1, stationId := 1, userId := some "alice", userVehicleId := none
    batteryStartPercent := some 20, batteryEndPercent := none, energyKwh := none
    startTime := some 0, endTime := none, durationMinutes := none, isActive := true }

def demoState : AppState :=
  { stations := [demoStation], sessions := [aliceSession]
    nextStationId := 2, nextSessionId := 2 }

/-- A station whose chargers are all taken. -/
def fullStation : Station :=
  { id := 1, chargerCount := some 2, availableChargers := some 0 }

def fullState : AppState :=
  { stations := [fullStation], sessions := [], nextStationId := 2, nextSessionId := 1 }

/-- An anomalous state: an active session although the counter already shows
every charger free (availableChargers = chargerCount). -/
def atCapStation : Station :=
  { id := 1, chargerCount := some 1, availableChargers := some 1 }

def atCapState : AppState :=
  { stations := [atCapStation], sessions := [aliceSession]
    nextStationId := 2, nextSessionId := 2 }

def emptyState : AppState :=
  { stations := [], sessions := [], nextStationId := 1, nextSessionId := 1 }

/-- A station with a single charger, free, and no sessions yet. -/
def oneFreeStation : Station :=
  { id := 1, chargerCount := some 1, availableChargers := some 1 }

def oneFreeState : AppState :=
  { stations := [oneFreeStation], sessions := [], nextStationId := 2, nextSessionId := 1 }

/-- C2: a startSession call on an existing station with no free charger
(availableChargers as read, `?? 0`, is not greater than 0) returns the
capacity error ("No available chargers") and the state — sessions table and
capacity counters included — is exactly the pre-call state. -/
theorem c2_capacity_exhausted_no_mutation (st : AppState) (stationId : Nat)
    (bs : Option Int) (vid : Option Nat) (uid : Option String) (now : Int)
    (updateFails : Bool) (station : Station)
    (hv : validBattery bs = true)
    (hst : getStation st stationId = some station)
    (hav : availOf station ≤ 0) :
    startSession st stationId bs vid uid now updateFails
      = (.error .noAvailableChargers, st) := by
  simp [startSession, startSessionSteps, hv, hst, hav]

theorem c2_capacity_exhausted_no_mutation_witness :
    validBattery (some 50) = true ∧ getStation fullState 1 = some fullStation ∧
    availOf fullStation ≤ 0 ∧
    startSession fullState 1 (some 50) none (some "bob") 5 false
      = (.error .noAvailableChargers, fullState) :=
  ⟨by decide, by decide, by decide,
    c2_capacity_exhausted_no_mutation fullState 1 (some 50) none (some "bob") 5 false
      fullStation (by decide) (by decide) (by decide)⟩

/-- C10: a startSession call whose stationId matches no station returns the
"Station not found" error (HTTP 404) — an outcome outside the spec's
startSession contract — with no session created and no counter changed:
the post-call state is exactly the pre-call state. -/
theorem c10_station_not_found (st : AppState) (stationId : Nat)
    (bs : Option Int) (vid : Option Nat) (uid : Option String) (now : Int)
    (updateFails : Bool)
    (hv : validBattery bs = true)
    (hst : getStation st stationId = none) :
    startSession st stationId bs vid uid now updateFails
      = (.error .stationNotFound, st) := by
  simp [startSession, startSessionSteps, hv, hst]

theorem c10_station_not_found_witness :
    validBattery (none : Option Int) = true ∧ getStation emptyState 7 = none ∧
    startSession emptyState 7 none none (some "bob") 5 false
      = (.error .stationNotFound, emptyState) :=
  ⟨by decide, by decide,
    c10_station_not_found emptyState 7 none none (some "bob") 5 false
      (by decide) (by decide)⟩

/-- C9: an endSession call with a supplied requesterId on a non-anonymous
session whose ownerId differs returns Forbidden and mutates nothing: the
post-call state is exactly the pre-call state. -/
theorem c9_forbidden_no_mutation (st : AppState) (sessionId : Nat)
    (requester owner : String) (be : Option Int) (en : Option Rat) (now : Int)
    (sess : ChargingSession)
    (hv : validBattery be = true) (hve : validEnergy en = true)
    (hfind : getSessionById st sessionId = some sess)
    (howner : sess.userId = some owner)
    (hne : owner ≠ requester) :
    endSession st sessionId (some requester) be en now = (.error .forbidden, st) := by
  have hmm : ownershipMismatch sess (some requester) = true := by
    simp [ownershipMismatch, howner, hne]
  simp [endSession, endSessionSteps, hv, hve, hfind, hmm]

theorem c9_forbidden_no_mutation_witness :
    validBattery (some 80) = true ∧ validEnergy (none : Option Rat) = true ∧
    getSessionById demoState 1 = some aliceSession ∧
    aliceSession.userId = some "alice" ∧ "alice" ≠ "mallory" ∧
    endSession demoState 1 (some "mallory") (some 80) none 60000
      = (.error .forbidden, demoState) :=
  ⟨by decide, by decide, by decide, by decide, by decide,
    c9_forbidden_no_mutation demoState 1 "mallory" "alice" (some 80) none 60000
      aliceSession (by decide) (by decide) (by decide) (by decide) (by decide)⟩

/-- C8: when an endSession call transitions an active session to ENDED but the
station's availableChargers already equals its chargerCount, the release
branch performs no increment (the stations table is left untouched, so the
counter never exceeds the total) and the call still returns the ended session
as a success. -/
theorem c8_release_clamped_still_success (st : AppState) (sessionId : Nat)
    (requester : Option String) (be : Option Int) (en : Option Rat) (now : Int)
    (sess : ChargingSession) (station : Station)
    (hv : validBattery be = true) (hve : validEnergy en = true)
    (hfind : getSessionById st sessionId = some sess)
    (hown : ownershipMismatch sess requester = false)
    (hact : sess.isActive = true)
    (hstat : getStation st sess.stationId = some station)
    (heq : availOf station = totalOf station) :
    (endSession st sessionId requester be en now).1
        = .ok (endChargingSessionRow sess now be en)
      ∧ (endSession st sessionId requester be en now).2.stations = st.stations := by
  have hnotlt : ¬ availOf station < totalOf station := by omega
  simp [endSession, endSessionSteps, hv, hve, hfind, hown, hact, hstat, hnotlt]

theorem c8_release_clamped_still_success_witness :
    validBattery (some 90) = true ∧ validEnergy (some 7) = true ∧
    getSessionById atCapState 1 = some aliceSession ∧
    ownershipMismatch aliceSession (some "alice") = false ∧
    aliceSession.isActive = true ∧
    getStation atCapState aliceSession.stationId = some atCapStation ∧
    availOf atCapStation = totalOf atCapStation ∧
    ((endSession atCapState 1 (some "alice") (some 90) (some 7) 60000).1
        = .ok (endChargingSessionRow aliceSession 60000 (some 90) (some 7))
      ∧ (endSession atCapState 1 (some "alice") (some 90) (some 7) 60000).2.stations
        = atCapState.stations) :=
  ⟨by decide, by decide, by decide, by decide, by decide, by decide, by decide,
    c8_release_clamped_still_success atCapState 1 (some "alice") (some 90) (some 7)
      60000 aliceSession atCapStation (by decide) (by decide) (by decide) (by decide)
      (by decide) (by decide) (by decide)⟩

/-- C6: an endSession call on an existing ACTIVE session whose owner matches
the requester (or is absent) succeeds, and the returned session carries
endTime = now, durationMinutes = Math.round((endTime - startTime) / 60000) —
which equals the mathematical round of the elapsed time in minutes — the
supplied batteryEnd and energy values, and state ENDED (isActive = false). -/
theorem c6_end_success_fields (st : AppState) (sessionId : Nat)
    (requester : Option String) (be : Option Int) (en : Option Rat) (now t0 : Int)
    (sess : ChargingSession)
    (hv : validBattery be = true) (hve : validEnergy en = true)
    (hfind : getSessionById st sessionId = some sess)
    (hown : ownershipMismatch sess requester = false)
    (hact : sess.isActive = true)
    (hstart : sess.startTime = some t0) :
    (endSession st sessionId requester be en now).1
        = .ok (endChargingSessionRow sess now be en)
      ∧ (endChargingSessionRow sess now be en).endTime = some now
      ∧ (endChargingSessionRow sess now be en).durationMinutes
        = some (round (((now - t0 : Int) : ℚ) / (60000 : ℚ)))
      ∧ (endChargingSessionRow sess now be en).batteryEndPercent = be
      ∧ (endChargingSessionRow sess now be en).energyKwh = en
      ∧ (endChargingSessionRow sess now be en).isActive = false := by
  refine ⟨?_, rfl, ?_, rfl, rfl, rfl⟩
  · unfold endSession endSessionSteps
    rw [hv, hve]
    simp only [Bool.and_self, Bool.not_true, Bool.false_eq_true, if_false, hfind,
      hown, hact, Bool.not_true]
    cases hstat : getStation (updateSessionRow st (endChargingSessionRow sess now be en))
        (endChargingSessionRow sess now be en).stationId with
    | none => simp
    | some station =>
      by_cases hlt : availOf station < totalOf station <;> simp [hlt]
  · unfold endChargingSessionRow
    rw [hstart]
    simp only
    rw [jsRoundDiv_eq_round (now - t0) 60000 (by omega)]
    norm_cast

theorem c6_end_success_fields_witness :
    validBattery (some 80) = true ∧ validEnergy (some (7 : Rat)) = true ∧
    getSessionById demoState 1 = some aliceSession ∧
    ownershipMismatch aliceSession (some "alice") = false ∧
    aliceSession.isActive = true ∧ aliceSession.startTime = some 0 ∧
    ((endSession demoState 1 (some "alice") (some 80) (some (7 : Rat)) 90000).1
        = .ok (endChargingSessionRow aliceSession 90000 (some 80) (some (7 : Rat)))
      ∧ (endChargingSessionRow aliceSession 90000 (some 80) (some (7 : Rat))).endTime
        = some 90000
      ∧ (endChargingSessionRow aliceSession 90000 (some 80) (some (7 : Rat))).durationMinutes
        = some (round (((90000 - 0 : Int) : ℚ) / (60000 : ℚ)))
      ∧ (endChargingSessionRow aliceSession 90000 (some 80) (some (7 : Rat))).batteryEndPercent
        = some 80
      ∧ (endChargingSessionRow aliceSession 90000 (some 80) (some (7 : Rat))).energyKwh
        = some (7 : Rat)
      ∧ (endChargingSessionRow aliceSession 90000 (some 80) (some (7 : Rat))).isActive
        = false) :=
  ⟨by decide, by decide, by decide, by decide, by decide, by decide,
    c6_end_success_fields demoState 1 (some "alice") (some 80) (some (7 : Rat))
      90000 0 aliceSession (by decide) (by decide) (by decide) (by decide)
      (by decide) (by decide)⟩

/-- C5 counterexample: on a concrete one-free-charger state, the successful
startSession call's first intermediate state (the head of its mutation trace)
already contains the newly created ACTIVE session while the station's
availableChargers still equals its pre-call value 1: the claim that no
intermediate step has a created session with an undecremented counter is
false — the code creates the session first and decrements second. -/
theorem c5_counterexample :
    (startSessionSteps oneFreeState 1 none none (some "bob") 5 false).1
        = .ok (newSessionRow oneFreeState 1 none none (some "bob") 5)
      ∧ (startSessionSteps oneFreeState 1 none none (some "bob") 5 false).2.head?
        = some (insertSessionState oneFreeState
            (newSessionRow oneFreeState 1 none none (some "bob") 5))
      ∧ getActiveSession
          (insertSessionState oneFreeState
            (newSessionRow oneFreeState 1 none none (some "bob") 5)) 1
        = some (newSessionRow oneFreeState 1 none none (some "bob") 5)
      ∧ getStation
          (insertSessionState oneFreeState
            (newSessionRow oneFreeState 1 none none (some "bob") 5)) 1
        = some oneFreeStation
      ∧ availOf oneFreeStation = 1
      ∧ getStation oneFreeState 1 = some oneFreeStation := by decide

/-- C5 amended: within a successful startSession call the order is the
reverse of the claim — the ACTIVE session row is created by the first storage
mutation, during which every station record (the availableChargers counter
included) is still untouched, and the decrement is the second and final
mutation. -/
theorem c5_amended_create_then_decrement (st : AppState) (stationId : Nat)
    (bs : Option Int) (vid : Option Nat) (uid : Option String) (now : Int)
    (station : Station)
    (hv : validBattery bs = true)
    (hst : getStation st stationId = some station)
    (hav : 0 < availOf station) :
    startSessionSteps st stationId bs vid uid now false
      = (.ok (newSessionRow st stationId bs vid uid now),
         [insertSessionState st (newSessionRow st stationId bs vid uid now),
          updateStationAvailability
            (insertSessionState st (newSessionRow st stationId bs vid uid now))
            stationId (availOf station - 1)])
      ∧ (insertSessionState st (newSessionRow st stationId bs vid uid now)).stations
        = st.stations
      ∧ (newSessionRow st stationId bs vid uid now).isActive = true
      ∧ (newSessionRow st stationId bs vid uid now)
          ∈ (insertSessionState st (newSessionRow st stationId bs vid uid now)).sessions := by
  have h0 : ¬ availOf station ≤ 0 := by omega
  refine ⟨?_, rfl, rfl, ?_⟩
  · simp [startSessionSteps, hv, hst, h0]
  · simp [insertSessionState]

theorem c5_amended_create_then_decrement_witness :
    validBattery (none : Option Int) = true ∧
    getStation oneFreeState 1 = some oneFreeStation ∧ 0 < availOf oneFreeStation ∧
    (startSessionSteps oneFreeState 1 none none (some "bob") 5 false
      = (.ok (newSessionRow oneFreeState 1 none none (some "bob") 5),
         [insertSessionState oneFreeState (newSessionRow oneFreeState 1 none none (some "bob") 5),
          updateStationAvailability
            (insertSessionState oneFreeState (newSessionRow oneFreeState 1 none none (some "bob") 5))
            1 (availOf oneFreeStation - 1)])
      ∧ (insertSessionState oneFreeState (newSessionRow oneFreeState 1 none none (some "bob") 5)).stations
        = oneFreeState.stations
      ∧ (newSessionRow oneFreeState 1 none none (some "bob") 5).isActive = true
      ∧ (newSessionRow oneFreeState 1 none none (some "bob") 5)
          ∈ (insertSessionState oneFreeState
              (newSessionRow oneFreeState 1 none none (some "bob") 5)).sessions) :=
  ⟨by decide, by decide, by decide,
    c5_amended_create_then_decrement oneFreeState 1 none none (some "bob") 5
      oneFreeStation (by decide) (by decide) (by decide)⟩

@[simp] theorem availOf_setAvail (s : Station) (v : Int) :
    availOf { s with availableChargers := some v } = v := rfl

@[simp] theorem totalOf_setAvail (s : Station) (v : Int) :
    totalOf { s with availableChargers := some v } = totalOf s := rfl

@[simp] theorem id_setAvail (s : Station) (v : Int) :
    ({ s with availableChargers := some v } : Station).id = s.id := rfl

@[simp] theorem activeCount_updateStationAvailability (st : AppState) (id : Nat)
    (v : Int) (q : Nat) :
    activeCount (updateStationAvailability st id v) q = activeCount st q := rfl

/-- Inserting a session adds its own contribution to the active count. -/
theorem activeCount_insertSessionState (st : AppState) (sess : ChargingSession)
    (q : Nat) :
    activeCount (insertSessionState st sess) q
      = activeCount st q + (if sess.stationId == q && sess.isActive then 1 else 0) := by
  unfold activeCount insertSessionState
  simp only [List.countP_append]
  push_cast
  by_cases h : (sess.stationId == q && sess.isActive) = true <;>
    simp [List.countP_cons, h]

/-- Replacing the unique session row found by id swaps its contribution to the
active count for the replacement's. -/
theorem activeCount_updateSessionRow (st : AppState) (row sess : ChargingSession)
    (q : Nat)
    (hnd : sessionIdsNodup st)
    (hfind : st.sessions.find? (fun s => s.id == row.id) = some sess) :
    activeCount (updateSessionRow st row) q
        + (if sess.stationId == q && sess.isActive then 1 else 0)
      = activeCount st q + (if row.stationId == q && row.isActive then 1 else 0) := by
  have hnd' : (st.sessions.map fun s => s.id).Nodup := hnd
  have h := countP_map_ite (fun s => s.id) (fun s => s.stationId == q && s.isActive)
    row row.id st.sessions hfind hnd'
  unfold activeCount updateSessionRow
  by_cases h1 : (sess.stationId == q && sess.isActive) = true <;>
    by_cases h2 : (row.stationId == q && row.isActive) = true <;>
    simp [h1, h2] at h ⊢ <;> omega

/-- The capacity invariant only reads the stations and sessions tables. -/
theorem capacityInvariant_congr (s1 s2 : AppState)
    (hst : s2.stations = s1.stations) (hse : s2.sessions = s1.sessions)
    (h : capacityInvariant s1) : capacityInvariant s2 := by
  intro x hx
  have hx1 : x ∈ s1.stations := by rw [← hst]; exact hx
  have hb := h x hx1
  unfold capacityEq activeCount at hb ⊢
  rw [hse]
  exact hb

/-- Setting a station's counter to a value inside [0, totalChargers] keeps the
bound invariant everywhere. -/
theorem chargerBound_updateStationAvailability (st : AppState) (k : Nat) (v : Int)
    (station : Station)
    (hnd : stationIdsNodup st)
    (hst : getStation st k = some station)
    (h0 : 0 ≤ v) (h1 : v ≤ totalOf station)
    (hinv : chargerBoundInvariant st) :
    chargerBoundInvariant (updateStationAvailability st k v) := by
  intro x hx
  have hx' : x ∈ st.stations.map
      (fun s => if s.id == k then { s with availableChargers := some v } else s) := hx
  rcases List.mem_map.mp hx' with ⟨y, hy, rfl⟩
  by_cases h : y.id = k
  · have hst' : st.stations.find? (fun s => s.id == k) = some station := hst
    have hnd' : (st.stations.map fun s => s.id).Nodup := hnd
    have hyb : y = station := find?_key_unique (fun s => s.id) k st.stations hnd' hst' hy h
    subst hyb
    have hb : (y.id == k) = true := by simp [h]
    rw [if_pos hb]
    constructor
    · simpa [availOf] using h0
    · simpa [availOf, totalOf] using h1
  · have hb : (y.id == k) = false := by simp [h]
    rw [if_neg (by simp [hb])]
    exact hinv y hy

/-- The start handler keeps the bound invariant on every path. -/
theorem chargerBound_startSession (st : AppState) (stationId : Nat)
    (bs : Option Int) (vid : Option Nat) (uid : Option String) (now : Int)
    (fails : Bool)
    (hnd : stationIdsNodup st)
    (hinv : chargerBoundInvariant st) :
    chargerBoundInvariant (startSession st stationId bs vid uid now fails).2 := by
  by_cases hv : validBattery bs
  case neg =>
    rw [startSession_final_validation st stationId bs vid uid now fails
      (by simpa using hv)]
    exact hinv
  case pos =>
  cases hst : getStation st stationId with
  | none =>
    rw [startSession_final_notFound st stationId bs vid uid now fails hv hst]
    exact hinv
  | some station =>
    by_cases hav : availOf station ≤ 0
    · rw [startSession_final_noavail st stationId bs vid uid now fails station hv hst hav]
      exact hinv
    · have hav' : 0 < availOf station := by omega
      have hb := hinv station (List.mem_of_find?_eq_some hst)
      cases fails with
      | true =>
        rw [startSession_final_rollback st stationId bs vid uid now station hv hst hav']
        exact fun x hx => hinv x hx
      | false =>
        rw [startSession_final_success st stationId bs vid uid now station hv hst hav']
        exact chargerBound_updateStationAvailability
          (insertSessionState st (newSessionRow st stationId bs vid uid now))
          stationId (availOf station - 1) station hnd hst (by omega) (by omega)
          (fun x hx => hinv x hx)

/-- The end handler keeps the bound invariant on every path. -/
theorem chargerBound_endSession (st : AppState) (sessionId : Nat)
    (requester : Option String) (be : Option Int) (en : Option Rat) (now : Int)
    (hnd : stationIdsNodup st)
    (hinv : chargerBoundInvariant st) :
    chargerBoundInvariant (endSession st sessionId requester be en now).2 := by
  by_cases hv : validBattery be
  case neg =>
    rw [endSession_final_validation st sessionId requester be en now (by simp [hv])]
    exact hinv
  case pos =>
  by_cases hve : validEnergy en
  case neg =>
    rw [endSession_final_validation st sessionId requester be en now (by simp [hv, hve])]
    exact hinv
  case pos =>
  cases hfind : getSessionById st sessionId with
  | none =>
    rw [endSession_final_notFound st sessionId requester be en now hv hve hfind]
    exact hinv
  | some sess =>
    cases hown : ownershipMismatch sess requester with
    | true =>
      rw [endSession_final_forbidden st sessionId requester be en now sess hv hve hfind hown]
      exact hinv
    | false =>
      cases hact : sess.isActive with
      | false =>
        rw [endSession_final_alreadyEnded st sessionId requester be en now sess
          hv hve hfind hown hact]
        exact hinv
      | true =>
        cases hstat : getStation st sess.stationId with
        | none =>
          rw [endSession_final_nostation st sessionId requester be en now sess
            hv hve hfind hown hact hstat]
          exact fun x hx => hinv x hx
        | some station =>
          have hb := hinv station (List.mem_of_find?_eq_some hstat)
          by_cases hlt : availOf station < totalOf station
          · rw [endSession_final_release st sessionId requester be en now sess station
              hv hve hfind hown hact hstat hlt]
            exact chargerBound_updateStationAvailability
              (updateSessionRow st (endChargingSessionRow sess now be en))
              sess.stationId (availOf station + 1) station hnd hstat
              (by omega) (by omega) (fun x hx => hinv x hx)
          · rw [endSession_final_norelease st sessionId requester be en now sess station
              hv hve hfind hown hact hstat hlt]
            exact fun x hx => hinv x hx

/-- The availability handler keeps the bound invariant on every path, given
every station has at least one charger. -/
theorem chargerBound_updateAvailability (st : AppState) (stationId : Nat) (v : Int)
    (hnd : stationIdsNodup st)
    (htot : positiveTotals st)
    (hinv : chargerBoundInvariant st) :
    chargerBoundInvariant (updateAvailability st stationId v).2 := by
  by_cases h0 : v < 0
  · simp only [updateAvailability, if_pos h0]
    exact hinv
  · cases hst : getStation st stationId with
    | none =>
      simp only [updateAvailability, if_neg h0, hst]
      exact hinv
    | some station =>
      by_cases hgt : totalOrOne station < v
      · simp only [updateAvailability, if_neg h0, hst, if_pos hgt]
        exact hinv
      · simp only [updateAvailability, if_neg h0, hst, if_neg hgt]
        have h1 := htot station (List.mem_of_find?_eq_some hst)
        have heq : totalOrOne station = totalOf station := by
          unfold totalOrOne totalOf at h1 ⊢
          cases hc : station.chargerCount with
          | none => rfl
          | some c =>
            rw [hc] at h1
            simp only [Option.getD_some] at h1 ⊢
            rw [if_neg (by omega)]
        exact chargerBound_updateStationAvailability st stationId v station hnd hst
          (by omega) (by omega) hinv

/-- C7 counterexample: createStation performs no validation, so from the empty
state (where the bound holds vacuously) a single createStation call reaches a
state whose station has availableChargers = 5 above chargerCount = 2,
refuting the claim that 0 ≤ availableChargers ≤ totalChargers holds in every
state reachable through the exposed operations including createStation. -/
theorem c7_counterexample :
    chargerBoundInvariant emptyState
      ∧ ¬ chargerBoundInvariant
          (createStationOp emptyState
            { chargerCount := some 2, availableChargers := some 5 }).2 := by decide

/-- C7 amended: in a state with distinct station ids whose stations all have
at least one charger (chargerCount ?? 1 ≥ 1) and all satisfy
0 ≤ availableChargers ≤ totalChargers, the bound is preserved by startSession
(every path, the rollback included), endSession (every path) and
updateAvailability (every path); createStation is excluded, since it performs
no validation and can create a station violating the bound outright. -/
theorem c7_amended_bound_preserved (st : AppState)
    (stationId : Nat) (bs : Option Int) (vid : Option Nat) (uid : Option String)
    (now : Int) (fails : Bool)
    (sessionId : Nat) (requester : Option String) (be : Option Int)
    (en : Option Rat) (now2 : Int)
    (sid2 : Nat) (v : Int)
    (hnd : stationIdsNodup st)
    (htot : positiveTotals st)
    (hinv : chargerBoundInvariant st) :
    chargerBoundInvariant (startSession st stationId bs vid uid now fails).2
      ∧ chargerBoundInvariant (endSession st sessionId requester be en now2).2
      ∧ chargerBoundInvariant (updateAvailability st sid2 v).2 :=
  ⟨chargerBound_startSession st stationId bs vid uid now fails hnd hinv,
   chargerBound_endSession st sessionId requester be en now2 hnd hinv,
   chargerBound_updateAvailability st sid2 v hnd htot hinv⟩

theorem c7_amended_bound_preserved_witness :
    stationIdsNodup demoState ∧ positiveTotals demoState ∧
    chargerBoundInvariant demoState ∧
    (chargerBoundInvariant (startSession demoState 1 (some 30) none (some "bob") 7 false).2
      ∧ chargerBoundInvariant (endSession demoState 1 (some "alice") (some 80) none 60000).2
      ∧ chargerBoundInvariant (updateAvailability demoState 1 2).2) :=
  ⟨by decide, by decide, by decide,
    c7_amended_bound_preserved demoState 1 (some 30) none (some "bob") 7 false
      1 (some "alice") (some 80) none 60000 1 2 (by decide) (by decide) (by decide)⟩

/-- C4: whenever a startSession call fails — in particular when the capacity
UPDATE step fails after the session row was persisted, triggering the rollback
branch — the post-call state is observably the pre-call state: the stations
table (so the availableChargers counter), the sessions table (so no session
created by the call survives) and any getActiveSession read are unchanged.
Only the serial id sequence of the sessions table advances. -/
theorem c4_failed_start_fully_undone (st : AppState) (stationId : Nat)
    (bs : Option Int) (vid : Option Nat) (uid : Option String) (now : Int)
    (fails : Bool) (e : StartError) (q : Nat)
    (hfresh : freshSessionId st)
    (herr : (startSession st stationId bs vid uid now fails).1 = .error e) :
    (startSession st stationId bs vid uid now fails).2.stations = st.stations
      ∧ (startSession st stationId bs vid uid now fails).2.sessions = st.sessions
      ∧ getActiveSession (startSession st stationId bs vid uid now fails).2 q
        = getActiveSession st q := by
  by_cases hv : validBattery bs
  case neg =>
    rw [startSession_final_validation st stationId bs vid uid now fails
      (by simpa using hv)]
    exact ⟨rfl, rfl, rfl⟩
  case pos =>
  cases hst : getStation st stationId with
  | none =>
    rw [startSession_final_notFound st stationId bs vid uid now fails hv hst]
    exact ⟨rfl, rfl, rfl⟩
  | some station =>
    by_cases hav : availOf station ≤ 0
    · rw [startSession_final_noavail st stationId bs vid uid now fails station hv hst hav]
      exact ⟨rfl, rfl, rfl⟩
    · have hav' : 0 < availOf station := by omega
      cases fails with
      | false =>
        rw [startSession_final_success st stationId bs vid uid now station hv hst hav']
          at herr
        simp at herr
      | true =>
        rw [startSession_final_rollback st stationId bs vid uid now station hv hst hav']
        have hsess := deleteSession_insert_fresh st
          (newSessionRow st stationId bs vid uid now) hfresh rfl
        refine ⟨rfl, hsess, ?_⟩
        show getActiveSession
          (deleteSession
            (insertSessionState st (newSessionRow st stationId bs vid uid now))
            (newSessionRow st stationId bs vid uid now).id) q = getActiveSession st q
        unfold getActiveSession
        rw [hsess]

/-- The start handler keeps the capacity equality on every path: the success
path decrements the counter and adds one ACTIVE session in the same call; the
rollback path restores the sessions table; error paths mutate nothing. -/
theorem capacity_startSession (st : AppState) (stationId : Nat) (bs : Option Int)
    (vid : Option Nat) (uid : Option String) (now : Int) (fails : Bool)
    (hnd : stationIdsNodup st) (hfresh : freshSessionId st)
    (hinv : capacityInvariant st) :
    capacityInvariant (startSession st stationId bs vid uid now fails).2 := by
  by_cases hv : validBattery bs
  case neg =>
    rw [startSession_final_validation st stationId bs vid uid now fails
      (by simpa using hv)]
    exact hinv
  case pos =>
  cases hst : getStation st stationId with
  | none =>
    rw [startSession_final_notFound st stationId bs vid uid now fails hv hst]
    exact hinv
  | some station =>
    by_cases hav : availOf station ≤ 0
    · rw [startSession_final_noavail st stationId bs vid uid now fails station hv hst hav]
      exact hinv
    · have hav' : 0 < availOf station := by omega
      cases fails with
      | true =>
        rw [startSession_final_rollback st stationId bs vid uid now station hv hst hav']
        exact capacityInvariant_congr st _ rfl
          (deleteSession_insert_fresh st (newSessionRow st stationId bs vid uid now)
            hfresh rfl) hinv
      | false =>
        rw [startSession_final_success st stationId bs vid uid now station hv hst hav']
        intro x hx
        have hx' : x ∈ st.stations.map (fun s =>
            if s.id == stationId
            then { s with availableChargers := some (availOf station - 1) }
            else s) := hx
        rcases List.mem_map.mp hx' with ⟨y, hy, rfl⟩
        by_cases h : y.id = stationId
        · have hnd' : (st.stations.map fun s => s.id).Nodup := hnd
          have hst' : st.stations.find? (fun s => s.id == stationId) = some station := hst
          have hyb : y = station :=
            find?_key_unique (fun s => s.id) stationId st.stations hnd' hst' hy h
          subst hyb
          have hb : (y.id == stationId) = true := by simp [h]
          rw [if_pos hb]
          unfold capacityEq
          have hcnt : activeCount
              (updateStationAvailability
                (insertSessionState st (newSessionRow st stationId bs vid uid now))
                stationId (availOf y - 1))
              ({ y with availableChargers := some (availOf y - 1) } : Station).id
              = activeCount st y.id + 1 := by
            rw [id_setAvail, activeCount_updateStationAvailability,
              activeCount_insertSessionState]
            have hp : ((newSessionRow st stationId bs vid uid now).stationId == y.id
                && (newSessionRow st stationId bs vid uid now).isActive) = true := by
              simp [newSessionRow, h]
            rw [hp]
            simp
          rw [hcnt, availOf_setAvail, totalOf_setAvail]
          have hbase := hinv y hy
          unfold capacityEq at hbase
          omega
        · have hb : (y.id == stationId) = false := by simp [h]
          rw [if_neg (by simp [hb])]
          unfold capacityEq
          have hcnt : activeCount
              (updateStationAvailability
                (insertSessionState st (newSessionRow st stationId bs vid uid now))
                stationId (availOf station - 1)) y.id
              = activeCount st y.id := by
            rw [activeCount_updateStationAvailability, activeCount_insertSessionState]
            have hp : ((newSessionRow st stationId bs vid uid now).stationId == y.id
                && (newSessionRow st stationId bs vid uid now).isActive) = false := by
              simp [newSessionRow]
              omega
            rw [hp]
            simp
          rw [hcnt]
          have hbase := hinv y hy
          unfold capacityEq at hbase
          omega

/-- The end handler keeps the capacity equality on every path: given the
equality held before the call, an ACTIVE session on the station forces
availableChargers < chargerCount, so the release branch always increments when
a session is actually ended. -/
theorem capacity_endSession (st : AppState) (sessionId : Nat)
    (requester : Option String) (be : Option Int) (en : Option Rat) (now : Int)
    (hndT : stationIdsNodup st) (hndS : sessionIdsNodup st)
    (hinv : capacityInvariant st) :
    capacityInvariant (endSession st sessionId requester be en now).2 := by
  by_cases hv : validBattery be
  case neg =>
    rw [endSession_final_validation st sessionId requester be en now (by simp [hv])]
    exact hinv
  case pos =>
  by_cases hve : validEnergy en
  case neg =>
    rw [endSession_final_validation st sessionId requester be en now (by simp [hv, hve])]
    exact hinv
  case pos =>
  cases hfind : getSessionById st sessionId with
  | none =>
    rw [endSession_final_notFound st sessionId requester be en now hv hve hfind]
    exact hinv
  | some sess =>
    cases hown : ownershipMismatch sess requester with
    | true =>
      rw [endSession_final_forbidden st sessionId requester be en now sess hv hve hfind hown]
      exact hinv
    | false =>
      cases hact : sess.isActive with
      | false =>
        rw [endSession_final_alreadyEnded st sessionId requester be en now sess
          hv hve hfind hown hact]
        exact hinv
      | true =>
        have hid : sess.id = sessionId := by simpa using List.find?_some hfind
        have hfind' : st.sessions.find?
            (fun s => s.id == (endChargingSessionRow sess now be en).id) = some sess := by
          simp only [id_endRow, hid]
          exact hfind
        have hmem_sess : sess ∈ st.sessions := List.mem_of_find?_eq_some hfind
        cases hstat : getStation st sess.stationId with
        | none =>
          have hfin : (endSession st sessionId requester be en now).2
              = updateSessionRow st (endChargingSessionRow sess now be en) := by
            rw [endSession_final_nostation st sessionId requester be en now sess
              hv hve hfind hown hact hstat]
          rw [hfin]
          intro x hx
          have hx' : x ∈ st.stations := hx
          have hxid : ¬ ((x.id == sess.stationId) = true) :=
            List.find?_eq_none.mp hstat x hx'
          have hxid' : sess.stationId ≠ x.id := by
            simp only [beq_iff_eq] at hxid
            omega
          unfold capacityEq
          have hcnt := activeCount_updateSessionRow st
            (endChargingSessionRow sess now be en) sess x.id hndS hfind'
          have hp1 : (sess.stationId == x.id && sess.isActive) = false := by
            simp [hxid']
          have hp2 : ((endChargingSessionRow sess now be en).stationId == x.id
              && (endChargingSessionRow sess now be en).isActive) = false := by
            simp [endChargingSessionRow]
          rw [hp1, hp2] at hcnt
          simp at hcnt
          have hbase := hinv x hx'
          unfold capacityEq at hbase
          omega
        | some station =>
          have hsid : station.id = sess.stationId := by
            simpa using List.find?_some hstat
          have hcountpos : 0 < st.sessions.countP
              (fun s => s.stationId == station.id && s.isActive) := by
            refine List.countP_pos_iff.mpr ⟨sess, hmem_sess, ?_⟩
            simp [hsid, hact]
          have hbase := hinv station (List.mem_of_find?_eq_some hstat)
          unfold capacityEq at hbase
          have hlt : availOf station < totalOf station := by
            unfold activeCount at hbase
            omega
          have hfin : (endSession st sessionId requester be en now).2
              = updateStationAvailability
                  (updateSessionRow st (endChargingSessionRow sess now be en))
                  sess.stationId (availOf station + 1) := by
            rw [endSession_final_release st sessionId requester be en now sess station
              hv hve hfind hown hact hstat hlt]
          rw [hfin]
          intro x hx
          have hx' : x ∈ st.stations.map (fun s =>
              if s.id == sess.stationId
              then { s with availableChargers := some (availOf station + 1) }
              else s) := hx
          rcases List.mem_map.mp hx' with ⟨y, hy, rfl⟩
          by_cases h : y.id = sess.stationId
          · have hnd' : (st.stations.map fun s => s.id).Nodup := hndT
            have hst' : st.stations.find? (fun s => s.id == sess.stationId)
                = some station := hstat
            have hyb : y = station :=
              find?_key_unique (fun s => s.id) sess.stationId st.stations hnd' hst' hy h
            subst hyb
            have hb : (y.id == sess.stationId) = true := by simp [h]
            rw [if_pos hb]
            unfold capacityEq
            rw [availOf_setAvail, totalOf_setAvail, id_setAvail]
            have hcnt := activeCount_updateSessionRow st
              (endChargingSessionRow sess now be en) sess y.id hndS hfind'
            have hp1 : (sess.stationId == y.id && sess.isActive) = true := by
              simp [h, hact]
            have hp2 : ((endChargingSessionRow sess now be en).stationId == y.id
                && (endChargingSessionRow sess now be en).isActive) = false := by
              simp [endChargingSessionRow]
            rw [hp1, hp2] at hcnt
            simp at hcnt
            have hcnt2 : activeCount
                (updateStationAvailability
                  (updateSessionRow st (endChargingSessionRow sess now be en))
                  sess.stationId (availOf y + 1)) y.id
                = activeCount (updateSessionRow st (endChargingSessionRow sess now be en)) y.id :=
              activeCount_updateStationAvailability _ _ _ _
            rw [hcnt2]
            omega
          · have hb : (y.id == sess.stationId) = false := by simp [h]
            rw [if_neg (by simp [hb])]
            unfold capacityEq
            have hcnt := activeCount_updateSessionRow st
              (endChargingSessionRow sess now be en) sess y.id hndS hfind'
            have hp0 : (sess.stationId == y.id) = false :=
              beq_eq_false_iff_ne.mpr fun he => h he.symm
            have hp1 : (sess.stationId == y.id && sess.isActive) = false := by
              rw [hp0, Bool.false_and]
            have hp2 : ((endChargingSessionRow sess now be en).stationId == y.id
                && (endChargingSessionRow sess now be en).isActive) = false := by
              simp [endChargingSessionRow]
            rw [hp1, hp2] at hcnt
            simp at hcnt
            have hcnt2 : activeCount
                (updateStationAvailability
                  (updateSessionRow st (endChargingSessionRow sess now be en))
                  sess.stationId (availOf station + 1)) y.id
                = activeCount (updateSessionRow st (endChargingSessionRow sess now be en)) y.id :=
              activeCount_updateStationAvailability _ _ _ _
            rw [hcnt2]
            have hbase2 := hinv y hy
            unfold capacityEq at hbase2
            omega

theorem c4_failed_start_fully_undone_witness :
    freshSessionId demoState ∧
    (startSession demoState 1 (some 30) none (some "bob") 7 true).1
      = .error .persistenceFailure ∧
    ((startSession demoState 1 (some 30) none (some "bob") 7 true).2.stations
        = demoState.stations
      ∧ (startSession demoState 1 (some 30) none (some "bob") 7 true).2.sessions
        = demoState.sessions
      ∧ getActiveSession (startSession demoState 1 (some 30) none (some "bob") 7 true).2 1
        = getActiveSession demoState 1) :=
  ⟨by decide, by decide,
    c4_failed_start_fully_undone demoState 1 (some 30) none (some "bob") 7 true
      .persistenceFailure 1 (by decide) (by decide)⟩

/-- C1 counterexample: in a concrete state satisfying the capacity equality
(1 free + 1 active = 2 total), a successful updateAvailability call setting
the counter to 2 breaks it (2 free + 1 active ≠ 2 total): not every exposed
operation preserves the equality — updateAvailability sets the counter
independently of the active-session count. -/
theorem c1_counterexample :
    capacityInvariant demoState
      ∧ (updateAvailability demoState 1 2).1
        = .ok { demoStation with availableChargers := some 2 }
      ∧ ¬ capacityInvariant (updateAvailability demoState 1 2).2 := by decide

/-- C1 amended: in a state with distinct primary keys and a serial session id
sequence ahead of the stored rows, the equality availableChargers(S) +
activeSessionCount(S) = totalChargers(S) for every station S is preserved by
startSession (every path, the rollback included) and by endSession (every
path); updateAvailability and createStation are excluded, since the former
sets the counter independently of the session count and the latter accepts an
arbitrary initial counter. -/
theorem c1_amended_capacity_preserved (st : AppState)
    (stationId : Nat) (bs : Option Int) (vid : Option Nat) (uid : Option String)
    (now : Int) (fails : Bool)
    (sessionId : Nat) (requester : Option String) (be : Option Int)
    (en : Option Rat) (now2 : Int)
    (hndT : stationIdsNodup st) (hndS : sessionIdsNodup st)
    (hfresh : freshSessionId st)
    (hinv : capacityInvariant st) :
    capacityInvariant (startSession st stationId bs vid uid now fails).2
      ∧ capacityInvariant (endSession st sessionId requester be en now2).2 :=
  ⟨capacity_startSession st stationId bs vid uid now fails hndT hfresh hinv,
   capacity_endSession st sessionId requester be en now2 hndT hndS hinv⟩

theorem c1_amended_capacity_preserved_witness :
    stationIdsNodup demoState ∧ sessionIdsNodup demoState ∧
    freshSessionId demoState ∧ capacityInvariant demoState ∧
    (capacityInvariant (startSession demoState 1 (some 30) none (some "bob") 7 false).2
      ∧ capacityInvariant (endSession demoState 1 (some "alice") (some 80) none 60000).2) :=
  ⟨by decide, by decide, by decide, by decide,
    c1_amended_capacity_preserved demoState 1 (some 30) none (some "bob") 7 false
      1 (some "alice") (some 80) none 60000
      (by decide) (by decide) (by decide) (by decide)⟩

/-- C3: ending the same session twice yields success then AlreadyEnded, and
the station's availableChargers is incremented exactly once across the two
calls: the first call raises it from a to a + 1, the second call returns the
error with a state identical to its input state, touching neither the session
row nor the counter. -/
theorem c3_end_twice_idempotent (st : AppState) (sessionId : Nat)
    (requester : Option String) (be1 be2 : Option Int) (en1 en2 : Option Rat)
    (now1 now2 : Int) (sess : ChargingSession) (station : Station)
    (hv1 : validBattery be1 = true) (hve1 : validEnergy en1 = true)
    (hv2 : validBattery be2 = true) (hve2 : validEnergy en2 = true)
    (hfind : getSessionById st sessionId = some sess)
    (hown : ownershipMismatch sess requester = false)
    (hact : sess.isActive = true)
    (hstat : getStation st sess.stationId = some station)
    (hlt : availOf station < totalOf station) :
    (endSession st sessionId requester be1 en1 now1).1
        = .ok (endChargingSessionRow sess now1 be1 en1)
      ∧ getStation (endSession st sessionId requester be1 en1 now1).2 sess.stationId
        = some { station with availableChargers := some (availOf station + 1) }
      ∧ endSession (endSession st sessionId requester be1 en1 now1).2 sessionId
          requester be2 en2 now2
        = (.error .alreadyEnded, (endSession st sessionId requester be1 en1 now1).2) := by
  have hid : sess.id = sessionId := by simpa using List.find?_some hfind
  have h1 := endSession_final_release st sessionId requester be1 en1 now1 sess station
    hv1 hve1 hfind hown hact hstat hlt
  have hfin : (endSession st sessionId requester be1 en1 now1).2
      = updateStationAvailability
          (updateSessionRow st (endChargingSessionRow sess now1 be1 en1))
          sess.stationId (availOf station + 1) := by rw [h1]
  have hres : (endSession st sessionId requester be1 en1 now1).1
      = .ok (endChargingSessionRow sess now1 be1 en1) := by rw [h1]
  refine ⟨hres, ?_, ?_⟩
  · rw [hfin]
    show (st.stations.map fun s =>
        if s.id == sess.stationId
        then { s with availableChargers := some (availOf station + 1) }
        else s).find? (fun s => s.id == sess.stationId)
      = some { station with availableChargers := some (availOf station + 1) }
    rw [find?_map_ite (fun s => s.id) sess.stationId
      (fun s => { s with availableChargers := some (availOf station + 1) })
      st.stations (fun x hx => hx)]
    rw [show st.stations.find? (fun s => s.id == sess.stationId) = some station from hstat]
    rfl
  · rw [hfin]
    have hfind2 : getSessionById
        (updateStationAvailability
          (updateSessionRow st (endChargingSessionRow sess now1 be1 en1))
          sess.stationId (availOf station + 1)) sessionId
        = some (endChargingSessionRow sess now1 be1 en1) := by
      show (st.sessions.map fun s =>
          if s.id == (endChargingSessionRow sess now1 be1 en1).id
          then endChargingSessionRow sess now1 be1 en1 else s).find?
          (fun s => s.id == sessionId)
        = some (endChargingSessionRow sess now1 be1 en1)
      simp only [id_endRow, hid]
      rw [find?_map_ite (fun s => s.id) sessionId
        (fun s => endChargingSessionRow sess now1 be1 en1) st.sessions
        (fun x hx => by simp [hid])]
      rw [show st.sessions.find? (fun s => s.id == sessionId)
        = some sess from hfind]
      rfl
    have hown2 : ownershipMismatch (endChargingSessionRow sess now1 be1 en1)
        requester = false := hown
    exact endSession_final_alreadyEnded _ sessionId requester be2 en2 now2
      (endChargingSessionRow sess now1 be1 en1) hv2 hve2 hfind2 hown2 rfl

theorem c3_end_twice_idempotent_witness :
    validBattery (some 80) = true ∧ validEnergy (none : Option Rat) = true ∧
    validBattery (some 85) = true ∧ validEnergy (some 3) = true ∧
    getSessionById demoState 1 = some aliceSession ∧
    ownershipMismatch aliceSession (some "alice") = false ∧
    aliceSession.isActive = true ∧
    getStation demoState aliceSession.stationId = some demoStation ∧
    availOf demoStation < totalOf demoStation ∧
    ((endSession demoState 1 (some "alice") (some 80) none 60000).1
        = .ok (endChargingSessionRow aliceSession 60000 (some 80) none)
      ∧ getStation (endSession demoState 1 (some "alice") (some 80) none 60000).2
          aliceSession.stationId
        = some { demoStation with availableChargers := some (availOf demoStation + 1) }
      ∧ endSession (endSession demoState 1 (some "alice") (some 80) none 60000).2 1
          (some "alice") (some 85) (some 3) 120000
        = (.error .alreadyEnded,
           (endSession demoState 1 (some "alice") (some 80) none 60000).2)) :=
  ⟨by decide, by decide, by decide, by decide, by decide, by decide, by decide,
   by decide, by decide,
    c3_end_twice_idempotent demoState 1 (some "alice") (some 80) (some 85) none
      (some 3) 60000 120000 aliceSession demoStation (by decide) (by decide)
      (by decide) (by decide) (by decide) (by decide) (by decide) (by decide)
      (by decide)⟩

end Bariq
